import Mathlib

/-!
Verification of the AIService component of the notionPageDb repository
(src/src/core/ai/AIService.ts), against its natural-language specification.

The TypeScript methods are modelled as pure Lean functions. Remote calls
(axios requests, the text-generation SDK) are modelled by oracle arguments:
an argument of type `Except JSError A` stands for the outcome of one remote
call (a thrown JavaScript value or a response payload), and a function
`Nat -> ...` stands for the sequence of responses seen by a polling loop.
Instance state (`modelName`, `dashscopeApiKey`) is passed explicitly, and
methods that could mutate it return the updated state.
-/

/-- Models a thrown JavaScript value: either an `Error` object carrying a
`message` string, or any other value together with its `String(...)` form. -/
inductive JSError where
  | errObj (msg : String)
  | nonError (str : String)
deriving DecidableEq, Repr

/-- Models `error instanceof Error ? error.message : "Unknown error"`
(the catch block of `generateImage`). -/
def outerErrMsg : JSError → String
  | JSError.errObj msg => msg
  | JSError.nonError _ => "Unknown error"

/-- Models `error instanceof Error ? error.message : String(error)`
(the catch block of the local-download branch of `generateImage`). -/
def innerErrMsg : JSError → String
  | JSError.errObj msg => msg
  | JSError.nonError str => str

/-- Models one element of `response.data.output.results` of the DashScope
task-status endpoint; only the `url` field is read by the code. -/
structure TaskResult where
  url : String
deriving DecidableEq, Repr

/-- Models `response.data.output` of the DashScope task-status endpoint.
The code reads `task_status` and `results`; a missing/undefined `results`
array takes the same branch as an empty one (`results && results.length > 0`
is false for both), so it is collapsed into the empty list. -/
structure TaskOutput where
  task_status : String
  results : List TaskResult
deriving DecidableEq, Repr

/-- Models the outcome of one `axios.get` status check inside
`getDashScopeImageResult`: a thrown value, or a response whose
`data`/`data.output` chain is missing (`none`, covering both
`!response.data` and `!response.data.output`), or a well-formed output. -/
def PollFetch : Type := Except JSError (Option TaskOutput)

/-- Observable effects of the polling routine: one remote status check of a
task, one internal sleep (`await this.delay(checkInterval)`), or a remote
cancel request. The alphabet includes `cancelRequest` so that the absence of
any cancel call is a statement about the trace, but the code never emits it. -/
inductive PollEvent where
  | statusCheck (taskId : String)
  | sleep (ms : Nat)
  | cancelRequest (taskId : String)
deriving DecidableEq, Repr

/-- How a run of the polling loop ended: a SUCCEEDED status, a FAILED status,
the attempt budget exhausted, a malformed response (missing
`data`/`data.output`), or a thrown value reaching the catch block. -/
inductive PollOutcome where
  | succeeded
  | failed
  | timedOut
  | malformed
  | threw
deriving DecidableEq, Repr

/-- Result of a run of the polling loop: the returned value
(`string | null` in the source), the trace of observable events, and the
exit classification. -/
structure PollRun where
  result : Option String
  events : List PollEvent
  outcome : PollOutcome
deriving DecidableEq, Repr

/-- Models the `while (attempts < maxAttempts)` loop of
`getDashScopeImageResult`. `attempt` is the 0-based index of the next status
check (the source increments a counter before each check), `fuel` is the
number of loop iterations still allowed, and `oracle i` is the outcome of
the i-th `axios.get`. Each iteration: one status check; on a thrown value
the exception reaches the outer catch and the routine returns null; on a
missing `data`/`data.output` it returns null; on `SUCCEEDED` it returns the
first result url (or null when `results` is empty); on `FAILED` it returns
null; otherwise it sleeps `checkInterval` and loops. Exhausted fuel models
the loop guard failing, after which the source returns null. -/
def pollAux (taskId : String) (oracle : Nat → PollFetch) (checkInterval : Nat) :
    Nat → Nat → PollRun
  | _, 0 => ⟨none, [], PollOutcome.timedOut⟩
  | attempt, fuel + 1 =>
    match oracle attempt with
    | Except.error _ => ⟨none, [PollEvent.statusCheck taskId], PollOutcome.threw⟩
    | Except.ok none => ⟨none, [PollEvent.statusCheck taskId], PollOutcome.malformed⟩
    | Except.ok (some out) =>
      if out.task_status = "SUCCEEDED" then
        match out.results with
        | [] => ⟨none, [PollEvent.statusCheck taskId], PollOutcome.succeeded⟩
        | r :: _ => ⟨some r.url, [PollEvent.statusCheck taskId], PollOutcome.succeeded⟩
      else if out.task_status = "FAILED" then
        ⟨none, [PollEvent.statusCheck taskId], PollOutcome.failed⟩
      else
        let rest := pollAux taskId oracle checkInterval (attempt + 1) fuel
        ⟨rest.result, PollEvent.statusCheck taskId :: PollEvent.sleep checkInterval :: rest.events,
          rest.outcome⟩

/-- Models `getDashScopeImageResult(taskId, maxAttempts = 15,
checkInterval = 5000)`: runs the polling loop from attempt 0 with
`maxAttempts` iterations of fuel. -/
def getDashScopeImageResult (taskId : String) (oracle : Nat → PollFetch)
    (maxAttempts checkInterval : Nat) : PollRun :=
  pollAux taskId oracle checkInterval 0 maxAttempts

/-- Number of remote status checks recorded in a trace. -/
def countChecks (events : List PollEvent) : Nat :=
  events.countP (fun e =>
    match e with
    | PollEvent.statusCheck _ => true
    | _ => false)

/-- Number of internal sleeps recorded in a trace. -/
def countSleeps (events : List PollEvent) : Nat :=
  events.countP (fun e =>
    match e with
    | PollEvent.sleep _ => true
    | _ => false)

/-- A status-check outcome that is well formed (response has an output) but
carries neither the SUCCEEDED nor the FAILED status. -/
def NonTerminalFetch (pf : PollFetch) : Prop :=
  ∃ out, pf = Except.ok (some out) ∧
    out.task_status ≠ "SUCCEEDED" ∧ out.task_status ≠ "FAILED"

/-- A status-check outcome that is well formed: no thrown value and the
`data.output` chain present. -/
def WellFormedFetch (pf : PollFetch) : Prop :=
  ∃ out, pf = Except.ok (some out)

/-- Trace of a run in which every checked status is non-terminal: one status
check followed by one sleep, per iteration. -/
def nonTermEvents (taskId : String) (checkInterval : Nat) : Nat → List PollEvent
  | 0 => []
  | n + 1 => PollEvent.statusCheck taskId :: PollEvent.sleep checkInterval ::
      nonTermEvents taskId checkInterval n

/-- Models the `AVAILABLE_MODELS` readonly array of `AIService`. -/
def AVAILABLE_MODELS : List String := ["deepseek-reasoner", "deepseek-chat"]

/-- Models the mutable instance state of `AIService`: the selected text
model and the DashScope API key read from the environment. -/
structure AIServiceState where
  modelName : String
  dashscopeApiKey : String
deriving DecidableEq, Repr

/-- Models the `AIConfig` argument of the constructor, restricted to the
fields the constructor reads (`config.model`, `config.apiKey`); optional
string fields are `Option String`, with `none` for undefined. -/
structure AIConfig where
  model : Option String
  apiKey : Option String
deriving DecidableEq, Repr

/-- Models the `SummaryOptions` argument of `generateSummary`, restricted to
the only field the method reads (`options?.maxLength`). -/
structure SummaryOptions where
  maxLength : Option Nat
deriving DecidableEq, Repr

/-- Models the JavaScript idiom `v || d` for an optional number: undefined
and 0 are falsy and give the default. -/
def jsOrDefaultNat (v : Option Nat) (d : Nat) : Nat :=
  match v with
  | none => d
  | some n => if n = 0 then d else n

/-- Models the JavaScript idiom `v || d` for an optional string: undefined
and the empty string are falsy and give the default. -/
def jsOrDefaultStr (v : Option String) (d : String) : String :=
  match v with
  | none => d
  | some s => if s = "" then d else s

/-- Models `String.prototype.trim` on the character list: leading and
trailing whitespace removed. Defined with structural list recursion so that
concrete instances evaluate. -/
def trimChars (cs : List Char) : List Char :=
  ((cs.dropWhile Char.isWhitespace).reverse.dropWhile Char.isWhitespace).reverse

/-- Models `String.prototype.trim`. -/
def jsTrim (s : String) : String :=
  String.mk (trimChars s.data)

/-- Splits a character list at every character satisfying `p`, keeping empty
segments, like `String.split` of the standard library but by structural
recursion so that concrete instances evaluate. -/
def splitChars (p : Char → Bool) (cs : List Char) : List (List Char) :=
  match cs with
  | [] => [[]]
  | c :: rest =>
    if p c then [] :: splitChars p rest
    else
      match splitChars p rest with
      | [] => [[c]]
      | q :: qs => (c :: q) :: qs

/-- Models `validateModel`: returns the model name when it is truthy and a
member of `AVAILABLE_MODELS` (the conjunct `m ≠ ""` reflects the truthiness
test `modelName && ...` of the source), and undefined otherwise. -/
def validateModel (modelName : Option String) : Option String :=
  match modelName with
  | none => none
  | some m => if m ≠ "" ∧ m ∈ AVAILABLE_MODELS then some m else none

/-- Models the constructor of `AIService`: `modelName` is the validated
configured model, falling back to deepseek-reasoner; `dashscopeApiKey` is
the environment value, falling back to the empty string. The constructor
only warns (it does not fail) when keys are missing. -/
def mkAIService (config : AIConfig) (envDashscopeApiKey : Option String) : AIServiceState :=
  { modelName := (validateModel config.model).getD "deepseek-reasoner"
    dashscopeApiKey := jsOrDefaultStr envDashscopeApiKey "" }

/-- Models `switchModel`: the validated requested model, falling back to the
current model when validation returns undefined. -/
def switchModel (st : AIServiceState) (modelName : String) : AIServiceState :=
  { st with modelName := (validateModel (some modelName)).getD st.modelName }

/-- Models `generateSummary`. The remote `generateText` call is the oracle
argument: `Except.ok text` is the returned text, `Except.error e` a thrown
value reaching the catch block. Prompt construction feeds only the remote
call, which the oracle stands for. The pair returned is (result, state after
the call); no branch assigns to instance fields, so the input state is
returned unchanged. `substring(0, maxLength - 3)` clamps a negative bound to
0, matching truncated Nat subtraction with `String.take`. -/
def generateSummary (st : AIServiceState) (content : String)
    (options : Option SummaryOptions) (remote : Except JSError String) :
    String × AIServiceState :=
  let maxLength := jsOrDefaultNat (options.bind SummaryOptions.maxLength) 250
  match remote with
  | Except.ok text =>
    let summary := jsTrim text
    if summary.length > maxLength then
      (summary.take (maxLength - 3) ++ "...", st)
    else
      (summary, st)
  | Except.error _ =>
    (content.take (maxLength - 3) ++ "...", st)

/-- Character class `['"]` of the quote-stripping regular expression of
`generateTitle` (code points 34 and 39). -/
def isTitleQuote (c : Char) : Bool :=
  c.toNat == 34 || c.toNat == 39

/-- Characters matched by `.` in a JavaScript regular expression without the
s flag: everything except the four line terminators. -/
def regexDotMatches (c : Char) : Bool :=
  !(c.toNat == 10 || c.toNat == 13 || c.toNat == 0x2028 || c.toNat == 0x2029)

/-- Models `title.replace(/^['"](.*)['"]$/, "$1")`: when the whole string is
a quote character, then a line-terminator-free middle, then a quote
character, the middle replaces the string; otherwise the string is
unchanged. -/
def stripMatchedQuotes (title : String) : String :=
  match title.data with
  | c0 :: c1 :: rest =>
    let body := c1 :: rest
    let middle := body.dropLast
    let clast := body.getLastD c1
    if isTitleQuote c0 && isTitleQuote clast && middle.all regexDotMatches then
      String.mk middle
    else
      title
  | _ => title

/-- Models `generateTitle`. The remote call is the oracle argument; the
2000-character truncation of `content` feeds only the prompt, which the
oracle stands for. The error branch falls back to `currentTitle ||
"Untitled"`. -/
def generateTitle (st : AIServiceState) (content : String) (currentTitle : Option String)
    (maxLength : Nat) (remote : Except JSError String) : String × AIServiceState :=
  match remote with
  | Except.ok text =>
    let title := stripMatchedQuotes (jsTrim text)
    if title.length > maxLength then
      (title.take (maxLength - 3) ++ "...", st)
    else
      (title, st)
  | Except.error _ =>
    (jsOrDefaultStr currentTitle "Untitled", st)

/-- Models `generateKeywords`. The success branch splits the trimmed remote
text on commas, trims, drops empties, and keeps at most `maxKeywords`
entries; splitting on `,` followed by trimming yields the same list as the
source split on the expression comma-then-whitespace followed by trimming,
since the trim erases the whitespace the separator would have consumed. The
error branch splits `content` at whitespace, keeps words longer than 5, and
takes at most `maxKeywords`; splitting at each whitespace character differs
from the source split on whitespace runs only by empty pieces, which the
length filter removes. -/
def generateKeywords (st : AIServiceState) (content : String) (maxKeywords : Nat)
    (remote : Except JSError String) : List String × AIServiceState :=
  match remote with
  | Except.ok text =>
    let keywordsText := jsTrim text
    let keywords := ((((splitChars (fun c => c == ',') keywordsText.data).map
      String.mk).map jsTrim).filter
      (fun k => decide (0 < k.length))).take maxKeywords
    (keywords, st)
  | Except.error _ =>
    ((((splitChars Char.isWhitespace content.data).map String.mk).filter
      (fun w => decide (5 < w.length))).take maxKeywords, st)

/-- Models the `ImageResult` type as used by `generateImage`: optional
fields are `Option`, with `none` for absent. -/
structure ImageResult where
  url : String
  localPath : Option String
  prompt : String
  taskId : Option String
  success : Bool
  error : Option String
deriving DecidableEq, Repr

/-- Models the options argument of `generateImage`, restricted to the fields
the method reads. -/
structure ImageGenOptions where
  width : Option Nat
  height : Option Nat
  localPath : Option String
  maxAttempts : Option Nat
  checkInterval : Option Nat
deriving DecidableEq, Repr

/-- Models `generateImage`. Remote interactions are oracle arguments:
`createResp` is the outcome of the task-creation POST, with payload the
`data.output.task_id` chain collapsed to `Option String` (`none` for a
missing `data`, `data.output`, or `data.output.task_id`); `pollOracle`
feeds the status-check loop; `downloadResp` is the outcome of
`downloadImage` (the saved local path, or the rethrown error). The guard on
the created task id uses `getD ""` so that an empty-string id takes the
same no-task-id branch as a missing one, matching the falsiness test
`!createTaskResponse.data.output.task_id`. The poll result guard
`!imageUrl` is false for null and for the empty string. `maxAttempts` and
`checkInterval` use the declared defaults 15 and 5000 only when undefined,
matching JavaScript default parameters. -/
def generateImage (st : AIServiceState) (prompt : String) (options : Option ImageGenOptions)
    (createResp : Except JSError (Option String)) (pollOracle : Nat → PollFetch)
    (downloadResp : Except JSError String) : ImageResult :=
  if st.dashscopeApiKey = "" then
    { url := "", localPath := none, prompt := prompt, taskId := none, success := false
      error := some "DASHSCOPE_API_KEY is not set. Cannot generate image." }
  else
    match createResp with
    | Except.error e =>
      { url := "", localPath := none, prompt := prompt, taskId := none, success := false
        error := some (outerErrMsg e) }
    | Except.ok taskIdField =>
      if taskIdField.getD "" = "" then
        { url := "", localPath := none, prompt := prompt, taskId := none, success := false
          error := some "No task ID returned from DashScope API" }
      else
        match (getDashScopeImageResult (taskIdField.getD "") pollOracle
            ((options.bind ImageGenOptions.maxAttempts).getD 15)
            ((options.bind ImageGenOptions.checkInterval).getD 5000)).result with
        | none =>
          { url := "", localPath := none, prompt := prompt, taskId := some (taskIdField.getD "")
            success := false
            error := some "Failed to get image URL from DashScope API" }
        | some imageUrl =>
          if imageUrl = "" then
            { url := "", localPath := none, prompt := prompt
              taskId := some (taskIdField.getD ""), success := false
              error := some "Failed to get image URL from DashScope API" }
          else
            match options.bind ImageGenOptions.localPath with
            | some _ =>
              match downloadResp with
              | Except.ok localPath =>
                { url := imageUrl, localPath := some localPath, prompt := prompt
                  taskId := some (taskIdField.getD ""), success := true, error := none }
              | Except.error e =>
                { url := "", localPath := none, prompt := prompt
                  taskId := some (taskIdField.getD ""), success := false
                  error := some (innerErrMsg e) }
            | none =>
              { url := imageUrl, localPath := none, prompt := prompt
                taskId := some (taskIdField.getD ""), success := true, error := none }

/-- Concrete task output with a status that is neither SUCCEEDED nor FAILED,
for instantiating theorems. -/
def pendingOut : TaskOutput := ⟨"PENDING", []⟩

/-- Concrete oracle whose every status check returns the PENDING status. -/
def pendingOracle : Nat → PollFetch := fun _ => Except.ok (some pendingOut)

/-- Concrete oracle whose every status check returns a SUCCEEDED status with
one result url. -/
def successOracle : Nat → PollFetch := fun _ =>
  Except.ok (some ⟨"SUCCEEDED", [⟨"https://img.example/x.png"⟩]⟩)

/-- Concrete service state with a set DashScope key, for instantiating
theorems. -/
def sampleState : AIServiceState := ⟨"deepseek-reasoner", "dashscope-key"⟩

lemma nonTermEvents_countChecks (taskId : String) (ci : Nat) :
    ∀ n, countChecks (nonTermEvents taskId ci n) = n := by
  intro n
  induction n with
  | zero => rfl
  | succ k ih =>
    simp only [countChecks] at ih ⊢
    simp [nonTermEvents, List.countP_cons, ih]

lemma nonTermEvents_countSleeps (taskId : String) (ci : Nat) :
    ∀ n, countSleeps (nonTermEvents taskId ci n) = n := by
  intro n
  induction n with
  | zero => rfl
  | succ k ih =>
    simp only [countSleeps] at ih ⊢
    simp [nonTermEvents, List.countP_cons, ih]

/-- When every status checked during the available fuel is non-terminal, the
loop runs its full fuel, returns null, times out, and produces the
check-sleep-check-sleep trace. -/
lemma pollAux_nonTerminal (taskId : String) (oracle : Nat → PollFetch) (ci : Nat) :
    ∀ fuel attempt, (∀ i, i < fuel → NonTerminalFetch (oracle (attempt + i))) →
      pollAux taskId oracle ci attempt fuel =
        ⟨none, nonTermEvents taskId ci fuel, PollOutcome.timedOut⟩ := by
  intro fuel
  induction fuel with
  | zero => intro attempt _; rfl
  | succ k ih =>
    intro attempt h
    obtain ⟨out, heq, hs, hf⟩ := h 0 (Nat.succ_pos k)
    have hrest : pollAux taskId oracle ci (attempt + 1) k =
        ⟨none, nonTermEvents taskId ci k, PollOutcome.timedOut⟩ := by
      apply ih
      intro i hi
      have := h (i + 1) (by omega)
      simpa [Nat.add_assoc, Nat.add_comm 1 i] using this
    simp only [pollAux]
    rw [show attempt + 0 = attempt from rfl] at heq
    rw [heq]
    simp [hs, hf, hrest, nonTermEvents]

lemma pollAux_step_error (taskId : String) (oracle : Nat → PollFetch) (ci attempt k : Nat)
    (e : JSError) (heq : oracle attempt = Except.error e) :
    pollAux taskId oracle ci attempt (k + 1) =
      ⟨none, [PollEvent.statusCheck taskId], PollOutcome.threw⟩ := by
  simp [pollAux, heq]

lemma pollAux_step_malformed (taskId : String) (oracle : Nat → PollFetch) (ci attempt k : Nat)
    (heq : oracle attempt = Except.ok none) :
    pollAux taskId oracle ci attempt (k + 1) =
      ⟨none, [PollEvent.statusCheck taskId], PollOutcome.malformed⟩ := by
  simp [pollAux, heq]

lemma pollAux_step_succeeded_nil (taskId : String) (oracle : Nat → PollFetch) (ci attempt k : Nat)
    (out : TaskOutput) (heq : oracle attempt = Except.ok (some out))
    (hs : out.task_status = "SUCCEEDED") (hres : out.results = []) :
    pollAux taskId oracle ci attempt (k + 1) =
      ⟨none, [PollEvent.statusCheck taskId], PollOutcome.succeeded⟩ := by
  simp [pollAux, heq, hs, hres]

lemma pollAux_step_succeeded_cons (taskId : String) (oracle : Nat → PollFetch) (ci attempt k : Nat)
    (out : TaskOutput) (r : TaskResult) (rs : List TaskResult)
    (heq : oracle attempt = Except.ok (some out))
    (hs : out.task_status = "SUCCEEDED") (hres : out.results = r :: rs) :
    pollAux taskId oracle ci attempt (k + 1) =
      ⟨some r.url, [PollEvent.statusCheck taskId], PollOutcome.succeeded⟩ := by
  simp [pollAux, heq, hs, hres]

lemma pollAux_step_failed (taskId : String) (oracle : Nat → PollFetch) (ci attempt k : Nat)
    (out : TaskOutput) (heq : oracle attempt = Except.ok (some out))
    (hs : out.task_status ≠ "SUCCEEDED") (hf : out.task_status = "FAILED") :
    pollAux taskId oracle ci attempt (k + 1) =
      ⟨none, [PollEvent.statusCheck taskId], PollOutcome.failed⟩ := by
  simp [pollAux, heq, hs, hf]

lemma pollAux_step_pending (taskId : String) (oracle : Nat → PollFetch) (ci attempt k : Nat)
    (out : TaskOutput) (heq : oracle attempt = Except.ok (some out))
    (hs : out.task_status ≠ "SUCCEEDED") (hf : out.task_status ≠ "FAILED") :
    pollAux taskId oracle ci attempt (k + 1) =
      ⟨(pollAux taskId oracle ci (attempt + 1) k).result,
        PollEvent.statusCheck taskId :: PollEvent.sleep ci ::
          (pollAux taskId oracle ci (attempt + 1) k).events,
        (pollAux taskId oracle ci (attempt + 1) k).outcome⟩ := by
  simp [pollAux, heq, hs, hf]

/-- A non-null returned value forces the run to have ended on a SUCCEEDED
status. -/
lemma pollAux_result_succeeded (taskId : String) (oracle : Nat → PollFetch) (ci : Nat) :
    ∀ fuel attempt u, (pollAux taskId oracle ci attempt fuel).result = some u →
      (pollAux taskId oracle ci attempt fuel).outcome = PollOutcome.succeeded := by
  intro fuel
  induction fuel with
  | zero =>
    intro attempt u h
    simp [pollAux] at h
  | succ k ih =>
    intro attempt u h
    cases heq : oracle attempt with
    | error e =>
      rw [pollAux_step_error taskId oracle ci attempt k e heq] at h
      simp at h
    | ok o =>
      cases o with
      | none =>
        rw [pollAux_step_malformed taskId oracle ci attempt k heq] at h
        simp at h
      | some out =>
        by_cases hs : out.task_status = "SUCCEEDED"
        · cases hres : out.results with
          | nil =>
            rw [pollAux_step_succeeded_nil taskId oracle ci attempt k out heq hs hres] at h
            simp at h
          | cons r rs =>
            rw [pollAux_step_succeeded_cons taskId oracle ci attempt k out r rs heq hs hres]
        · by_cases hf : out.task_status = "FAILED"
          · rw [pollAux_step_failed taskId oracle ci attempt k out heq hs hf] at h
            simp at h
          · rw [pollAux_step_pending taskId oracle ci attempt k out heq hs hf] at h ⊢
            exact ih (attempt + 1) u h

/-- When every remote response is well formed, the loop can only end on
SUCCEEDED, FAILED, or attempt exhaustion. -/
lemma pollAux_outcome_cases (taskId : String) (oracle : Nat → PollFetch) (ci : Nat)
    (hwf : ∀ i, WellFormedFetch (oracle i)) :
    ∀ fuel attempt,
      (pollAux taskId oracle ci attempt fuel).outcome = PollOutcome.succeeded ∨
      (pollAux taskId oracle ci attempt fuel).outcome = PollOutcome.failed ∨
      (pollAux taskId oracle ci attempt fuel).outcome = PollOutcome.timedOut := by
  intro fuel
  induction fuel with
  | zero =>
    intro attempt
    right; right; rfl
  | succ k ih =>
    intro attempt
    obtain ⟨out, heq⟩ := hwf attempt
    by_cases hs : out.task_status = "SUCCEEDED"
    · cases hres : out.results with
      | nil =>
        rw [pollAux_step_succeeded_nil taskId oracle ci attempt k out heq hs hres]
        left; rfl
      | cons r rs =>
        rw [pollAux_step_succeeded_cons taskId oracle ci attempt k out r rs heq hs hres]
        left; rfl
    · by_cases hf : out.task_status = "FAILED"
      · rw [pollAux_step_failed taskId oracle ci attempt k out heq hs hf]
        right; left; rfl
      · rw [pollAux_step_pending taskId oracle ci attempt k out heq hs hf]
        exact ih (attempt + 1)

/-- Every event of any run is either a status check of the given task or an
internal sleep of the given interval; in particular no cancel request is
ever emitted. -/
lemma pollAux_events_mem (taskId : String) (oracle : Nat → PollFetch) (ci : Nat) :
    ∀ fuel attempt, ∀ e ∈ (pollAux taskId oracle ci attempt fuel).events,
      e = PollEvent.statusCheck taskId ∨ e = PollEvent.sleep ci := by
  intro fuel
  induction fuel with
  | zero =>
    intro attempt e he
    simp [pollAux] at he
  | succ k ih =>
    intro attempt e he
    cases heq : oracle attempt with
    | error err =>
      rw [pollAux_step_error taskId oracle ci attempt k err heq] at he
      simp at he
      left; exact he
    | ok o =>
      cases o with
      | none =>
        rw [pollAux_step_malformed taskId oracle ci attempt k heq] at he
        simp at he
        left; exact he
      | some out =>
        by_cases hs : out.task_status = "SUCCEEDED"
        · cases hres : out.results with
          | nil =>
            rw [pollAux_step_succeeded_nil taskId oracle ci attempt k out heq hs hres] at he
            simp at he
            left; exact he
          | cons r rs =>
            rw [pollAux_step_succeeded_cons taskId oracle ci attempt k out r rs heq hs hres] at he
            simp at he
            left; exact he
        · by_cases hf : out.task_status = "FAILED"
          · rw [pollAux_step_failed taskId oracle ci attempt k out heq hs hf] at he
            simp at he
            left; exact he
          · rw [pollAux_step_pending taskId oracle ci attempt k out heq hs hf] at he
            simp only [List.mem_cons] at he
            rcases he with h1 | h2 | h3
            · left; exact h1
            · right; exact h2
            · exact ih (attempt + 1) e h3

/-- Any model name accepted by `validateModel` is a member of
`AVAILABLE_MODELS`. -/
lemma validateModel_mem (x : Option String) (r : String)
    (h : validateModel x = some r) : r ∈ AVAILABLE_MODELS := by
  cases x with
  | none => simp [validateModel] at h
  | some m =>
    have hv : validateModel (some m) =
        if m ≠ "" ∧ m ∈ AVAILABLE_MODELS then some m else none := rfl
    rw [hv] at h
    by_cases hc : m ≠ "" ∧ m ∈ AVAILABLE_MODELS
    · rw [if_pos hc] at h
      injection h with h2
      exact h2 ▸ hc.2
    · rw [if_neg hc] at h
      simp at h

/-- C1: with maxAttempts = 3, polling a remote task whose status never
becomes SUCCEEDED or FAILED performs exactly 3 remote status checks and then
returns the timed-out null result. -/
theorem poller_timeout_exactly_three_checks (taskId : String)
    (oracle : Nat → PollFetch) (ci : Nat)
    (h : ∀ i, i < 3 → NonTerminalFetch (oracle i)) :
    (getDashScopeImageResult taskId oracle 3 ci).result = none ∧
    countChecks (getDashScopeImageResult taskId oracle 3 ci).events = 3 ∧
    (getDashScopeImageResult taskId oracle 3 ci).outcome = PollOutcome.timedOut := by
  have heq := pollAux_nonTerminal taskId oracle ci 3 0
    (by intro i hi; simpa using h i hi)
  unfold getDashScopeImageResult
  rw [heq]
  exact ⟨rfl, nonTermEvents_countChecks taskId ci 3, rfl⟩

/-- C1 witness: a concrete always-PENDING oracle makes the poller perform
exactly 3 checks and time out with null. -/
theorem poller_timeout_exactly_three_checks_witness :
    (getDashScopeImageResult "task-1" pendingOracle 3 5000).result = none ∧
    countChecks (getDashScopeImageResult "task-1" pendingOracle 3 5000).events = 3 ∧
    (getDashScopeImageResult "task-1" pendingOracle 3 5000).outcome = PollOutcome.timedOut :=
  poller_timeout_exactly_three_checks "task-1" pendingOracle 5000
    (fun _ _ => ⟨pendingOut, rfl, by decide, by decide⟩)

/-- C2 counterexample: one invocation of the polling routine with
maxAttempts = 2 on an always-PENDING oracle performs 2 remote status checks,
not exactly one, and emits its sleeps inside the invocation itself. -/
theorem poll_one_check_per_invocation_counterexample :
    countChecks (getDashScopeImageResult "task-1" pendingOracle 2 5000).events ≠ 1 ∧
    PollEvent.sleep 5000 ∈ (getDashScopeImageResult "task-1" pendingOracle 2 5000).events := by
  constructor
  · decide
  · decide

/-- C2 amended: a single invocation of `getDashScopeImageResult` on a task
that never reaches a terminal status performs `maxAttempts` remote status
checks and `maxAttempts` internal sleeps of `checkInterval`; the waiting is
a blocking delay inside the loop of the invocation, not an external driver
tick. -/
theorem poll_invocation_checks_and_sleeps (taskId : String)
    (oracle : Nat → PollFetch) (maxAttempts ci : Nat)
    (h : ∀ i, i < maxAttempts → NonTerminalFetch (oracle i)) :
    countChecks (getDashScopeImageResult taskId oracle maxAttempts ci).events = maxAttempts ∧
    countSleeps (getDashScopeImageResult taskId oracle maxAttempts ci).events = maxAttempts := by
  have heq := pollAux_nonTerminal taskId oracle ci maxAttempts 0
    (by intro i hi; simpa using h i hi)
  unfold getDashScopeImageResult
  rw [heq]
  exact ⟨nonTermEvents_countChecks taskId ci maxAttempts,
    nonTermEvents_countSleeps taskId ci maxAttempts⟩

/-- C2 amended witness: with maxAttempts = 2 and an always-PENDING oracle,
one invocation performs 2 checks and 2 internal sleeps. -/
theorem poll_invocation_checks_and_sleeps_witness :
    countChecks (getDashScopeImageResult "task-1" pendingOracle 2 5000).events = 2 ∧
    countSleeps (getDashScopeImageResult "task-1" pendingOracle 2 5000).events = 2 :=
  poll_invocation_checks_and_sleeps "task-1" pendingOracle 2 5000
    (fun _ _ => ⟨pendingOut, rfl, by decide, by decide⟩)

set_option maxRecDepth 10000 in
/-- C3 counterexample: on a failing remote call the three enrichment
operations return ordinary fallback values to their caller — the truncated
content with an ellipsis, the title Untitled, and a word list — instead of
surfacing a classified failure. -/
theorem enrichment_failure_returns_fallback_counterexample :
    (generateSummary sampleState "abc" none (Except.error (JSError.errObj "boom"))).1
      = "abc..." ∧
    (generateTitle sampleState "abc" none 70 (Except.error (JSError.errObj "boom"))).1
      = "Untitled" ∧
    (generateKeywords sampleState "alpha beta gammagamma" 10
      (Except.error (JSError.errObj "boom"))).1 = ["gammagamma"] := by
  refine ⟨?_, rfl, ?_⟩ <;> decide

/-- C3 amended: on every failing remote call, each enrichment operation
catches the failure and returns a locally computed fallback — a prefix of
the content followed by an ellipsis for the summary, the current title or
Untitled for the title, the long words of the content for the keywords —
independent of the thrown value; no Transient/Fatal classification reaches
the caller. -/
theorem enrichment_failure_falls_back (st : AIServiceState) (content : String)
    (options : Option SummaryOptions) (currentTitle : Option String)
    (maxLength maxKeywords : Nat) (e1 e2 e3 : JSError) :
    (generateSummary st content options (Except.error e1)).1 =
      content.take (jsOrDefaultNat (options.bind SummaryOptions.maxLength) 250 - 3) ++ "..." ∧
    (generateTitle st content currentTitle maxLength (Except.error e2)).1 =
      jsOrDefaultStr currentTitle "Untitled" ∧
    (generateKeywords st content maxKeywords (Except.error e3)).1 =
      (((splitChars Char.isWhitespace content.data).map String.mk).filter
        (fun w => decide (5 < w.length))).take maxKeywords :=
  ⟨rfl, rfl, rfl⟩

/-- C4: against well-formed responses the polling loop ends in exactly one
of the outcomes SUCCEEDED, FAILED, or timed out; a url is returned only on
the SUCCEEDED outcome; the FAILED and timed-out outcomes always return
null. -/
theorem poller_terminates_three_outcomes (taskId : String)
    (oracle : Nat → PollFetch) (maxAttempts ci : Nat)
    (hwf : ∀ i, WellFormedFetch (oracle i)) :
    ((getDashScopeImageResult taskId oracle maxAttempts ci).outcome = PollOutcome.succeeded ∨
     (getDashScopeImageResult taskId oracle maxAttempts ci).outcome = PollOutcome.failed ∨
     (getDashScopeImageResult taskId oracle maxAttempts ci).outcome = PollOutcome.timedOut) ∧
    (∀ u, (getDashScopeImageResult taskId oracle maxAttempts ci).result = some u →
      (getDashScopeImageResult taskId oracle maxAttempts ci).outcome = PollOutcome.succeeded) ∧
    ((getDashScopeImageResult taskId oracle maxAttempts ci).outcome = PollOutcome.failed →
      (getDashScopeImageResult taskId oracle maxAttempts ci).result = none) ∧
    ((getDashScopeImageResult taskId oracle maxAttempts ci).outcome = PollOutcome.timedOut →
      (getDashScopeImageResult taskId oracle maxAttempts ci).result = none) := by
  refine ⟨pollAux_outcome_cases taskId oracle ci hwf maxAttempts 0, ?_, ?_, ?_⟩
  · intro u hu
    exact pollAux_result_succeeded taskId oracle ci maxAttempts 0 u hu
  · intro hout
    cases hres : (getDashScopeImageResult taskId oracle maxAttempts ci).result with
    | none => rfl
    | some u =>
      have hsucc := pollAux_result_succeeded taskId oracle ci maxAttempts 0 u hres
      rw [getDashScopeImageResult] at hout
      rw [hsucc] at hout
      exact absurd hout (by decide)
  · intro hout
    cases hres : (getDashScopeImageResult taskId oracle maxAttempts ci).result with
    | none => rfl
    | some u =>
      have hsucc := pollAux_result_succeeded taskId oracle ci maxAttempts 0 u hres
      rw [getDashScopeImageResult] at hout
      rw [hsucc] at hout
      exact absurd hout (by decide)

/-- C4 witness: instantiated at an always-PENDING oracle with 2 attempts;
the run ends in one of the three outcomes. -/
theorem poller_terminates_three_outcomes_witness :
    (getDashScopeImageResult "task-1" pendingOracle 2 5000).outcome = PollOutcome.succeeded ∨
    (getDashScopeImageResult "task-1" pendingOracle 2 5000).outcome = PollOutcome.failed ∨
    (getDashScopeImageResult "task-1" pendingOracle 2 5000).outcome = PollOutcome.timedOut :=
  (poller_terminates_three_outcomes "task-1" pendingOracle 2 5000
    (fun _ => ⟨pendingOut, rfl⟩)).1

/-- C5: every observable event of a polling run is either a status check of
the given task or an internal sleep of the configured interval; in
particular the poller never issues a remote cancel request. -/
theorem poller_never_cancels (taskId : String) (oracle : Nat → PollFetch)
    (maxAttempts ci : Nat) :
    ∀ e ∈ (getDashScopeImageResult taskId oracle maxAttempts ci).events,
      e = PollEvent.statusCheck taskId ∨ e = PollEvent.sleep ci :=
  fun e he => pollAux_events_mem taskId oracle ci maxAttempts 0 e he

/-- C5 witness: the first event of a concrete run is a status check of the
given task or a sleep. -/
theorem poller_never_cancels_witness :
    PollEvent.statusCheck "task-1" = PollEvent.statusCheck "task-1" ∨
    PollEvent.statusCheck "task-1" = PollEvent.sleep 5000 :=
  poller_never_cancels "task-1" pendingOracle 1 5000
    (PollEvent.statusCheck "task-1") (by decide)

/-- C6: the constructor always selects a member of the closed set
AVAILABLE_MODELS (an unsupported configured name falls back to
deepseek-reasoner), and switchModel preserves membership (an unsupported
requested name keeps the current model); hence every generation call
dispatches on a member of the closed set. -/
theorem modelName_in_closed_set (config : AIConfig) (env : Option String)
    (st : AIServiceState) (m : String) :
    (mkAIService config env).modelName ∈ AVAILABLE_MODELS ∧
    (st.modelName ∈ AVAILABLE_MODELS →
      (switchModel st m).modelName ∈ AVAILABLE_MODELS) := by
  constructor
  · show (validateModel config.model).getD "deepseek-reasoner" ∈ AVAILABLE_MODELS
    cases hv : validateModel config.model with
    | none => simp [AVAILABLE_MODELS]
    | some r =>
      simpa using validateModel_mem config.model r hv
  · intro hst
    show (validateModel (some m)).getD st.modelName ∈ AVAILABLE_MODELS
    cases hv : validateModel (some m) with
    | none => simpa using hst
    | some r =>
      simpa using validateModel_mem (some m) r hv

/-- C6 witness: an unsupported configured name gives a model in the closed
set, and switching from it to deepseek-chat stays in the closed set. -/
theorem modelName_in_closed_set_witness :
    (mkAIService ⟨some "gpt-4", some "key"⟩ none).modelName ∈ AVAILABLE_MODELS ∧
    (switchModel (mkAIService ⟨some "gpt-4", some "key"⟩ none)
      "deepseek-chat").modelName ∈ AVAILABLE_MODELS :=
  ⟨(modelName_in_closed_set ⟨some "gpt-4", some "key"⟩ none sampleState "x").1,
   (modelName_in_closed_set ⟨some "gpt-4", some "key"⟩ none
     (mkAIService ⟨some "gpt-4", some "key"⟩ none) "deepseek-chat").2 (by decide)⟩

/-- C7: the error branch of generateSummary leaves the instance state
unchanged (modelName and dashscopeApiKey are preserved), so any later
generateTitle and generateKeywords calls on the post-call state return
exactly what they return on the original state. -/
theorem summary_failure_preserves_state (st : AIServiceState) (content : String)
    (options : Option SummaryOptions) (e : JSError) (content2 : String)
    (currentTitle : Option String) (maxLength : Nat) (r2 : Except JSError String)
    (content3 : String) (maxKeywords : Nat) (r3 : Except JSError String) :
    ((generateSummary st content options (Except.error e)).2).modelName = st.modelName ∧
    ((generateSummary st content options (Except.error e)).2).dashscopeApiKey =
      st.dashscopeApiKey ∧
    generateTitle ((generateSummary st content options (Except.error e)).2)
        content2 currentTitle maxLength r2 =
      generateTitle st content2 currentTitle maxLength r2 ∧
    generateKeywords ((generateSummary st content options (Except.error e)).2)
        content3 maxKeywords r3 =
      generateKeywords st content3 maxKeywords r3 :=
  ⟨rfl, rfl, rfl, rfl⟩

/-- C9: generateKeywords returns at most maxKeywords keywords and every
returned keyword is non-empty, in both the remote-response branch and the
error-fallback branch. -/
theorem keywords_bounded_and_nonempty (st : AIServiceState) (content : String)
    (maxKeywords : Nat) (remote : Except JSError String) :
    (generateKeywords st content maxKeywords remote).1.length ≤ maxKeywords ∧
    ∀ k ∈ (generateKeywords st content maxKeywords remote).1, 0 < k.length := by
  cases remote with
  | ok text =>
    constructor
    · simpa [generateKeywords] using
        List.length_take_le maxKeywords
          (((((splitChars (fun c => c == ',') (jsTrim text).data).map
            String.mk).map jsTrim).filter (fun k => decide (0 < k.length))))
    · intro k hk
      simp only [generateKeywords] at hk
      have hk2 := List.mem_of_mem_take hk
      have hp := (List.mem_filter.mp hk2).2
      exact of_decide_eq_true hp
  | error e =>
    constructor
    · simpa [generateKeywords] using
        List.length_take_le maxKeywords
          ((((splitChars Char.isWhitespace content.data).map String.mk).filter
            (fun w => decide (5 < w.length))))
    · intro k hk
      simp only [generateKeywords] at hk
      have hk2 := List.mem_of_mem_take hk
      have hp := (List.mem_filter.mp hk2).2
      have : 5 < k.length := of_decide_eq_true hp
      omega

/-- C9 witness: a concrete remote response gives at most 10 keywords, and
the concrete returned keyword alpha is non-empty. -/
theorem keywords_bounded_and_nonempty_witness :
    (generateKeywords sampleState "some content" 10
      (Except.ok "alpha, beta")).1.length ≤ 10 ∧
    0 < ("alpha" : String).length :=
  ⟨(keywords_bounded_and_nonempty sampleState "some content" 10
      (Except.ok "alpha, beta")).1,
   (keywords_bounded_and_nonempty sampleState "some content" 10
      (Except.ok "alpha, beta")).2 "alpha" (by decide)⟩

/-- C8 counterexample: when the task-creation call throws an Error object
whose message is empty, generateImage returns a failure whose error field is
the empty string, so the error message of a failure is not always
non-empty. -/
theorem generateImage_empty_error_message_counterexample :
    (generateImage sampleState "a prompt" none (Except.error (JSError.errObj ""))
      pendingOracle (Except.ok "p")).success = false ∧
    (generateImage sampleState "a prompt" none (Except.error (JSError.errObj ""))
      pendingOracle (Except.ok "p")).error = some "" := by
  constructor
  · decide
  · decide

/-- C8 amended: generateImage never throws — every run returns an
ImageResult — and in every returned result success holds exactly when the
url is non-empty; every failure has an empty url and a present error
message, and that message is non-empty whenever the thrown values involved
carry non-empty extracted messages (the three built-in failure messages are
always non-empty). -/
theorem generateImage_result_invariants (st : AIServiceState) (prompt : String)
    (options : Option ImageGenOptions) (createResp : Except JSError (Option String))
    (pollOracle : Nat → PollFetch) (downloadResp : Except JSError String)
    (hc : ∀ e, createResp = Except.error e → outerErrMsg e ≠ "")
    (hd : ∀ e, downloadResp = Except.error e → innerErrMsg e ≠ "") :
    ((generateImage st prompt options createResp pollOracle downloadResp).success = true ↔
      (generateImage st prompt options createResp pollOracle downloadResp).url ≠ "") ∧
    ((generateImage st prompt options createResp pollOracle downloadResp).success = false →
      (generateImage st prompt options createResp pollOracle downloadResp).url = "" ∧
      ∃ m, (generateImage st prompt options createResp pollOracle downloadResp).error
        = some m ∧ m ≠ "") := by
  unfold generateImage
  by_cases hkey : st.dashscopeApiKey = ""
  · rw [if_pos hkey]
    exact ⟨by simp, fun _ =>
      ⟨rfl, "DASHSCOPE_API_KEY is not set. Cannot generate image.", rfl, by decide⟩⟩
  · rw [if_neg hkey]
    cases createResp with
    | error e =>
      exact ⟨by simp, fun _ => ⟨rfl, outerErrMsg e, rfl, hc e rfl⟩⟩
    | ok taskIdField =>
      dsimp only
      by_cases htid : taskIdField.getD "" = ""
      · rw [if_pos htid]
        exact ⟨by simp, fun _ =>
          ⟨rfl, "No task ID returned from DashScope API", rfl, by decide⟩⟩
      · rw [if_neg htid]
        cases hrun : (getDashScopeImageResult (taskIdField.getD "") pollOracle
            ((options.bind ImageGenOptions.maxAttempts).getD 15)
            ((options.bind ImageGenOptions.checkInterval).getD 5000)).result with
        | none =>
          exact ⟨by simp, fun _ =>
            ⟨rfl, "Failed to get image URL from DashScope API", rfl, by decide⟩⟩
        | some imageUrl =>
          dsimp only
          by_cases hu : imageUrl = ""
          · rw [if_pos hu]
            exact ⟨by simp, fun _ =>
              ⟨rfl, "Failed to get image URL from DashScope API", rfl, by decide⟩⟩
          · rw [if_neg hu]
            cases hloc : options.bind ImageGenOptions.localPath with
            | none =>
              exact ⟨⟨fun _ => hu, fun _ => rfl⟩, fun hfalse => by simp at hfalse⟩
            | some lp =>
              cases downloadResp with
              | ok localPath =>
                exact ⟨⟨fun _ => hu, fun _ => rfl⟩, fun hfalse => by simp at hfalse⟩
              | error e =>
                exact ⟨by simp, fun _ => ⟨rfl, innerErrMsg e, rfl, hd e rfl⟩⟩

/-- C8 amended witness: a concrete successful run has a non-empty url. -/
theorem generateImage_result_invariants_witness :
    (generateImage sampleState "a prompt" none (Except.ok (some "task-9"))
      successOracle (Except.ok "p")).url ≠ "" :=
  (generateImage_result_invariants sampleState "a prompt" none
    (Except.ok (some "task-9")) successOracle (Except.ok "p")
    (fun _ h => Except.noConfusion h)
    (fun _ h => Except.noConfusion h)).1.mp (by decide)
